import Mathlib

/-!
# TOAD-SAGE incident similarity and historical-case matching engine

A shallow embedding of `src/core/companion/SecurityCompanion.js` (class
`SecurityCompanion`) and of the spec's matching-engine components that the
source calls but never defines (`extractPatterns`, `calculateSimilarity`,
`pruneOldData`, `updatePatternLearning`).  JS numbers are modelled as `ℚ`
(the literal `0.7` as `7/10`), `Date.now()` / `new Date()` readings as a
`now : ℕ` parameter, the insertion-ordered JS `Map` as an association
`List`, and JS `undefined` / non-object arguments as `Option.none`.
-/

namespace ToadSage

/-- An externally supplied incident (spec §3): free-form description, a list
of indicator strings, optional severity metadata. -/
structure Incident where
  description : String
  indicators : List String
  severity : Option Nat
deriving DecidableEq

/-- The response/outcome produced by the external analysis pipeline and
stored beside the incident.  Its payload shape is irrelevant to the matching
engine, so it is kept to one field. -/
structure Response where
  message : String
deriving DecidableEq

/-- A stored case: exactly the object built at
`SecurityCompanion.js` lines 164–169 — `{ incident, response,
timestamp: new Date(), patterns: this.extractPatterns(incident) }`. -/
structure CaseRecord where
  incident : Incident
  response : Response
  timestamp : Nat
  patterns : List String
deriving DecidableEq

/-- A match result: the object pushed at lines 188–191,
`{ ...historicalCase, similarityScore: similarity }` — the spread of the
stored case record plus the score. -/
structure MatchResult extends CaseRecord where
  similarityScore : ℚ
deriving DecidableEq

/-- The Pattern Extractor's error (spec §4.1, §7): signalled when the
incident argument is missing or not a structured record. -/
inductive InvalidIncidentError where
  | invalidIncident
deriving DecidableEq

/-! ## Pattern Extractor (spec §4.1)

`this.extractPatterns` is called at `SecurityCompanion.js` lines 168 and 183
but defined nowhere in the repository; spec §9 states the source left it as
a stub and supplies the concrete design in §4.1.  The definitions below are
therefore modelled from the spec. -/

/-- Modelled from the spec: §4.1 "classify each indicator by syntactic shape
(hash-like, IP-like, domain-like, URL-like)".  Deterministic classification
of one indicator string into a category token. -/
def classifyIndicator (s : String) : String :=
  if s.startsWith "http" then "indicator:url"
  else if s.length ≠ 0 ∧ ∀ c ∈ s.toList, (c.isDigit ∨ c = '.') then "indicator:ip"
  else if (s.length = 32 ∨ s.length = 40 ∨ s.length = 64)
          ∧ ∀ c ∈ s.toList, (c.isDigit ∨ ('a' ≤ c ∧ c ≤ 'f')) then "indicator:hash"
  else if '.' ∈ s.toList then "indicator:domain"
  else "indicator:other"

/-- Modelled from the spec: §4.1 "a fixed vocabulary-to-category mapping"
for keyword hits in the free-text description. -/
def keywordVocabulary : List (String × String) :=
  [("phishing", "topic:phishing"), ("malware", "topic:malware"),
   ("ransomware", "topic:ransomware"), ("malicious", "topic:malicious"),
   ("suspicious", "topic:suspicious"), ("exfiltration", "topic:exfiltration")]

/-- Modelled from the spec: §4.1 keyword-category hits extracted from the
description, in fixed vocabulary order (deterministic). -/
def keywordTokens (description : String) : List String :=
  keywordVocabulary.filterMap fun p =>
    if p.1 ∈ description.splitOn " " then some p.2 else none

/-- Modelled from the spec: §4.1 "a coarse severity bucket", with the
missing-metadata default of §4.1 applied. -/
def severityBucket (severity : Option Nat) : String :=
  match severity with
  | none => "severity:unknown"
  | some s => if 8 ≤ s then "severity:high"
              else if 4 ≤ s then "severity:medium"
              else "severity:low"

/-- Modelled from the spec: §4.1 fingerprints are "an ordered set of
distinct feature tokens — order is insertion order of first occurrence". -/
def dedupKeepFirst (l : List String) : List String :=
  l.foldl (fun acc t => if t ∈ acc then acc else acc ++ [t]) []

/-- Modelled from the spec: §4.1 `extract` on a valid incident — indicator
category tokens, then keyword category tokens, then the severity bucket,
deduplicated keeping first occurrences. -/
def extractFeatures (incident : Incident) : List String :=
  dedupKeepFirst
    (incident.indicators.map classifyIndicator
      ++ keywordTokens incident.description
      ++ [severityBucket incident.severity])

/-- Modelled from the spec: `extractPatterns` is absent from the source
(only called, lines 168/183); per spec §4.1/§7 it signals
`InvalidIncidentError` when the incident argument is missing or not a
structured record (`none` here), and otherwise returns the fingerprint. -/
def extractPatterns (incident : Option Incident) :
    Except InvalidIncidentError (List String) :=
  match incident with
  | none => .error .invalidIncident
  | some inc => .ok (extractFeatures inc)

/-! ## Similarity Scorer (spec §4.2)

`this.calculateSimilarity` is called at `SecurityCompanion.js` line 186 but
defined nowhere in the repository; spec §9 supplies the algorithm. -/

/-- Modelled from the spec: §4.2 "Jaccard-style overlap —
`|intersection| / |union|` over the two feature-token sets; if both sets are
empty, similarity is defined as 0". -/
def calculateSimilarity (a b : List String) : ℚ :=
  if a.toFinset = ∅ ∧ b.toFinset = ∅ then 0
  else ((a.toFinset ∩ b.toFinset).card : ℚ) / ((a.toFinset ∪ b.toFinset).card : ℚ)

/-! ## Companion state and the Case Store operations

`SecurityCompanion`'s constructor (lines 17–18) holds `previousCases` and
`learningPatterns` as insertion-ordered JS `Map`s, modelled as association
lists.  `maxSize` / `maxAge` are the pruning bounds of spec §4.3/§6
(supplied by the orchestrator; the source's `pruneOldData` is undefined). -/

structure CompanionState where
  previousCases : List (String × CaseRecord)
  learningPatterns : List (String × Nat)
  maxSize : Nat
  maxAge : Option Nat
deriving DecidableEq

/-- JS `Map.prototype.set`: an existing key keeps its position and gets the
new value; a new key is appended at the end (insertion order). -/
def mapSet (m : List (String × CaseRecord)) (k : String) (v : CaseRecord) :
    List (String × CaseRecord) :=
  if m.any (fun e => e.1 = k) then
    m.map (fun e => if e.1 = k then (k, v) else e)
  else
    m ++ [(k, v)]

/-- Modelled from the spec: `updatePatternLearning` is called at line 172
but defined nowhere in the repository.  The spec's design (§3, §9) scopes
pattern learning to the learned-pattern map, leaving the case store
untouched: each feature token of the incident has its count bumped. -/
def updatePatternLearning (st : CompanionState) (incident : Incident)
    (_response : Response) : CompanionState :=
  { st with
    learningPatterns :=
      (extractFeatures incident).foldl
        (fun m t =>
          if m.any (fun e => e.1 = t) then
            m.map (fun e => if e.1 = t then (t, e.2 + 1) else e)
          else m ++ [(t, 1)])
        st.learningPatterns }

/-- Modelled from the spec: the pruned case list.  `pruneOldData` is called
at line 175 but defined nowhere in the repository; spec §4.3 — "removes the
oldest entries exceeding `maxSize` count or `maxAge` since createdAt":
age-expired entries are dropped, then the oldest entries beyond `maxSize`
are dropped, keeping the most recently inserted ones. -/
def prunedCases (now maxSize : Nat) (maxAge : Option Nat)
    (cases : List (String × CaseRecord)) : List (String × CaseRecord) :=
  let fresh := cases.filter fun e =>
    match maxAge with
    | none => true
    | some m => now - e.2.timestamp ≤ m
  fresh.drop (fresh.length - maxSize)

/-- Modelled from the spec: `pruneOldData` (line 175, body missing) applied
to the companion state, using the orchestrator-configured bounds. -/
def pruneOldData (st : CompanionState) (now : Nat) : CompanionState :=
  { st with previousCases := prunedCases now st.maxSize st.maxAge st.previousCases }

/-- The caseId computed at line 163, `` `case_${Date.now()}` ``, and used
as the store key at line 164. -/
def assignedCaseId (now : Nat) : String := "case_" ++ Nat.repr now

/-- `updateLearningDatabase` (lines 161–176): builds
`caseId = "case_" + Date.now()` (line 163), stores
`{ incident, response, timestamp: new Date(), patterns: extractPatterns(incident) }`
under it, runs `updatePatternLearning`, then `pruneOldData`.  Both clock
reads are modelled by the same `now`.  The function body has **no return
statement**, so the async call resolves to `undefined`: the first component
of the result is that resolved value (`none`), beside the new state. -/
def updateLearningDatabase (st : CompanionState) (incident : Incident)
    (response : Response) (now : Nat) : Option String × CompanionState :=
  let caseId := "case_" ++ Nat.repr now
  let rcd : CaseRecord :=
    { incident := incident, response := response, timestamp := now
      patterns := extractFeatures incident }
  let st1 := { st with previousCases := mapSet st.previousCases caseId rcd }
  let st2 := updatePatternLearning st1 incident response
  let st3 := pruneOldData st2 now
  (none, st3)

/-- Modelled from the spec: §4.3 `get(caseId) -> CaseRecord | not-found`
(`Map.prototype.get` on `previousCases`), absent-value result as `none`. -/
def getCase (st : CompanionState) (caseId : String) : Option CaseRecord :=
  (st.previousCases.find? (fun e => e.1 = caseId)).map (fun e => e.2)

/-! ## Case Matcher: `findSimilarCases` (lines 181–196) -/

/-- The loop body of lines 185–193: for each stored case, in `Map`
iteration (= insertion) order, compute the similarity and push a match
result when `similarity > 0.7`. -/
def collectSimilar (patterns : List String)
    (previousCases : List (String × CaseRecord)) : List MatchResult :=
  previousCases.foldl
    (fun acc e =>
      let similarity := calculateSimilarity patterns e.2.patterns
      if 7/10 < similarity then
        acc ++ [{ toCaseRecord := e.2, similarityScore := similarity }]
      else acc)
    []

/-- The conditional push of one loop iteration, as an `Option`. -/
def matchEntry (patterns : List String) (e : String × CaseRecord) :
    Option MatchResult :=
  if 7/10 < calculateSimilarity patterns e.2.patterns then
    some { toCaseRecord := e.2,
           similarityScore := calculateSimilarity patterns e.2.patterns }
  else none

/-- One step of the stable sort: place `x` before the first element whose
score is not above `x`'s. -/
def insertDesc (x : MatchResult) : List MatchResult → List MatchResult
  | [] => [x]
  | y :: ys =>
    if y.similarityScore ≤ x.similarityScore then x :: y :: ys
    else y :: insertDesc x ys

/-- Line 195, `similarCases.sort((a, b) => b.similarityScore - a.similarityScore)`:
`Array.prototype.sort` is stable (ES2019), so this is a stable sort
descending by score — ties keep their original (insertion) order, which the
insertion sort below realises. -/
def sortBySimilarityDesc : List MatchResult → List MatchResult
  | [] => []
  | x :: xs => insertDesc x (sortBySimilarityDesc xs)

/-- `findSimilarCases(incident)` (lines 181–196): extract the query
fingerprint (propagating the Pattern Extractor's error on a missing /
non-object incident), score every stored case, keep those above `0.7`,
sort descending by score. -/
def findSimilarCases (previousCases : List (String × CaseRecord))
    (incident : Option Incident) :
    Except InvalidIncidentError (List MatchResult) :=
  match extractPatterns incident with
  | .error e => .error e
  | .ok patterns => .ok (sortBySimilarityDesc (collectSimilar patterns previousCases))

/-- `findSimilarCases` as a method on the companion state: the body only
reads `this.previousCases` (line 185) and mutates local variables
(`similarCases`, sorted in place at line 195); it never assigns to any
field of `this`, so the state component is returned unchanged. -/
def findSimilarCasesMethod (st : CompanionState) (incident : Option Incident) :
    Except InvalidIncidentError (List MatchResult) × CompanionState :=
  (findSimilarCases st.previousCases incident, st)

/-! ## `analyzeIncidentWithContext` (lines 45–85)

The external collaborators (VirusTotal, MITRE, AlienVault, Groq) are out of
scope (spec §1); their awaited outcomes are inputs of the model.  A JS
method call `this.m(...)` on a method the class does not define evaluates
`undefined(...)` and throws a `TypeError`; the methods `SecurityCompanion`
actually defines are listed below, straight from the class body. -/

/-- A JS exception reaching the embedding's surface. -/
inductive JSError where
  | typeError (msg : String)
  | jsError (msg : String)
deriving DecidableEq

/-- The methods defined in the `SecurityCompanion` class body
(lines 29, 45, 90, 140, 161, 181).  Notably absent: `calculateConfidence`
(called at line 73) and `showError` (called at line 83 — it exists only on
the unrelated `TOADSagePopup` class in `popup.js`). -/
def securityCompanionMethods : List String :=
  ["startCompanionMode", "analyzeIncidentWithContext",
   "formatCompanionResponse", "showThinkingState",
   "updateLearningDatabase", "findSimilarCases"]

/-- The awaited outcomes of the external service calls in the `try` block
(lines 51–55 and 61–67): each either fulfils with an opaque payload or
rejects with a JS error. -/
structure AnalysisEnv where
  virusTotal : Except JSError String
  mitre : Except JSError String
  alienVault : Except JSError String
  groq : Except JSError String

/-- Lines 45–85.  `showThinkingState` (line 47, before the `try`) is a
defined method and is modelled as a UI no-op.  Inside the `try`: the three
`Promise.all` calls, then `findSimilarCases` (whose
`InvalidIncidentError` surfaces as a thrown JS error), then the Groq call;
at line 73 the code evaluates `this.calculateConfidence(aiAnalysis)` —
`calculateConfidence` is not a method of the class, so a `TypeError` is
thrown there, before `formatCompanionResponse` / `updateLearningDatabase` /
`return response` (lines 70–79) can run.  The `catch` (lines 81–84) logs
and then evaluates `this.showError(...)`: `showError` is not a method of
the class either, so the `catch` block itself throws; otherwise the
function would fall off the end, returning `undefined` (`none`). -/
def analyzeIncidentWithContext (st : CompanionState) (incident : Option Incident)
    (env : AnalysisEnv) : Except JSError (Option Response) × CompanionState :=
  let tryBlock : Except JSError (Response × CompanionState) := do
    let _vtResults ← env.virusTotal
    let _mitreMapping ← env.mitre
    let _threatIntel ← env.alienVault
    let _similarCases ←
      match findSimilarCases st.previousCases incident with
      | .ok s => Except.ok s
      | .error _ => Except.error (JSError.jsError "InvalidIncidentError")
    let _aiAnalysis ← env.groq
    Except.error (JSError.typeError "this.calculateConfidence is not a function")
  match tryBlock with
  | .ok (response, st') => (.ok (some response), st')
  | .error _e =>
    if "showError" ∈ securityCompanionMethods then (.ok none, st)
    else (.error (JSError.typeError "this.showError is not a function"), st)

/-! ## Concrete instances used by witnesses and counterexamples -/

def demoIncident : Incident := ⟨"phishing email", ["1.2.3.4"], none⟩

def demoIncident2 : Incident := ⟨"malware alert", [], some 9⟩

def demoResponse : Response := ⟨"resolved"⟩

def demoResponse2 : Response := ⟨"contained"⟩

def demoCaseA : CaseRecord := ⟨demoIncident, demoResponse, 1, extractFeatures demoIncident⟩

def demoCaseB : CaseRecord := ⟨demoIncident, demoResponse2, 2, extractFeatures demoIncident⟩

def demoStore : List (String × CaseRecord) := [("case_1", demoCaseA), ("case_2", demoCaseB)]

def demoMatchA : MatchResult := ⟨demoCaseA, 1⟩

def demoMatchB : MatchResult := ⟨demoCaseB, 1⟩

def demoState0 : CompanionState := ⟨[], [], 10, none⟩

def demoStateAfterFirst : CompanionState :=
  (updateLearningDatabase demoState0 demoIncident demoResponse 5).2

def demoSecondInsert : Option String × CompanionState :=
  updateLearningDatabase demoStateAfterFirst demoIncident2 demoResponse2 5

def demoCase3 : CaseRecord := ⟨demoIncident2, demoResponse, 3, extractFeatures demoIncident2⟩

def demoState1 : CompanionState := ⟨[("case_3", demoCase3)], [], 10, none⟩

/-! ## Lemmas about the Similarity Scorer -/

lemma calculateSimilarity_nonneg (a b : List String) :
    0 ≤ calculateSimilarity a b := by
  unfold calculateSimilarity
  split
  · exact le_refl 0
  · positivity

lemma calculateSimilarity_le_one (a b : List String) :
    calculateSimilarity a b ≤ 1 := by
  unfold calculateSimilarity
  split
  · norm_num
  · next h =>
    have hu : (a.toFinset ∪ b.toFinset).Nonempty := by
      rcases not_and_or.mp h with h1 | h1
      · exact (Finset.nonempty_iff_ne_empty.mpr h1).mono Finset.subset_union_left
      · exact (Finset.nonempty_iff_ne_empty.mpr h1).mono Finset.subset_union_right
    have hpos : (0 : ℚ) < ((a.toFinset ∪ b.toFinset).card : ℚ) := by
      exact_mod_cast Finset.card_pos.mpr hu
    rw [div_le_one hpos]
    exact_mod_cast Finset.card_le_card Finset.inter_subset_union

lemma calculateSimilarity_comm (a b : List String) :
    calculateSimilarity a b = calculateSimilarity b a := by
  by_cases ha : a.toFinset = ∅ <;> by_cases hb : b.toFinset = ∅ <;>
    simp [calculateSimilarity, ha, hb, Finset.inter_comm, Finset.union_comm]

lemma calculateSimilarity_self (a : List String) (h : a ≠ []) :
    calculateSimilarity a a = 1 := by
  have hne : a.toFinset ≠ ∅ := by
    simpa [List.toFinset_eq_empty_iff] using h
  have hcard : ((a.toFinset.card : ℚ)) ≠ 0 := by
    exact_mod_cast Finset.card_ne_zero.mpr (Finset.nonempty_iff_ne_empty.mpr hne)
  simp [calculateSimilarity, hne, Finset.inter_self, Finset.union_self, div_self hcard]

/-- The fingerprint of any incident contains at least the severity bucket
token, so it is never the empty token list. -/
lemma insertToken_ne_nil (acc : List String) (t : String) :
    (if t ∈ acc then acc else acc ++ [t]) ≠ [] := by
  cases acc with
  | nil => simp
  | cons x xs => split <;> simp

lemma foldl_insertToken_ne_nil :
    ∀ (l : List String) (acc : List String), acc ≠ [] ∨ l ≠ [] →
      l.foldl (fun acc t => if t ∈ acc then acc else acc ++ [t]) acc ≠ [] := by
  intro l
  induction l with
  | nil =>
    intro acc h
    simpa using h.resolve_right (by simp)
  | cons t ts ih =>
    intro acc _
    simpa using ih _ (Or.inl (insertToken_ne_nil acc t))

lemma extractFeatures_ne_nil (incident : Incident) :
    extractFeatures incident ≠ [] := by
  unfold extractFeatures dedupKeepFirst
  exact foldl_insertToken_ne_nil _ [] (Or.inr (by simp))

/-! ## Lemmas about the Case Matcher loop and sort -/

lemma collectSimilar_eq (p : List String) (cs : List (String × CaseRecord)) :
    collectSimilar p cs = cs.filterMap (matchEntry p) := by
  suffices h : ∀ (cs : List (String × CaseRecord)) (acc : List MatchResult),
      cs.foldl
        (fun acc e =>
          let similarity := calculateSimilarity p e.2.patterns
          if 7/10 < similarity then
            acc ++ [{ toCaseRecord := e.2, similarityScore := similarity }]
          else acc)
        acc = acc ++ cs.filterMap (matchEntry p) by
    simpa using h cs []
  intro cs
  induction cs with
  | nil => intro acc; simp
  | cons e es ih =>
    intro acc
    by_cases hc : 7/10 < calculateSimilarity p e.2.patterns <;>
      simp [hc, ih, matchEntry, List.filterMap_cons]

lemma matchEntry_timestamp {p : List String} {e : String × CaseRecord}
    {r : MatchResult} (h : matchEntry p e = some r) :
    r.timestamp = e.2.timestamp := by
  unfold matchEntry at h
  split at h
  · cases h; rfl
  · cases h

lemma matchEntry_score {p : List String} {e : String × CaseRecord}
    {r : MatchResult} (h : matchEntry p e = some r) :
    7/10 < r.similarityScore := by
  unfold matchEntry at h
  split at h
  · next hc => cases h; exact hc
  · cases h

lemma insertDesc_perm (x : MatchResult) (l : List MatchResult) :
    List.Perm (insertDesc x l) (x :: l) := by
  induction l with
  | nil => exact List.Perm.refl _
  | cons y ys ih =>
    unfold insertDesc
    split
    · exact List.Perm.refl _
    · exact (ih.cons y).trans (List.Perm.swap x y ys)

lemma sortBySimilarityDesc_perm (l : List MatchResult) :
    List.Perm (sortBySimilarityDesc l) l := by
  induction l with
  | nil => exact List.Perm.refl _
  | cons x xs ih =>
    exact (insertDesc_perm x (sortBySimilarityDesc xs)).trans (ih.cons x)

lemma pairwise_insertDesc {x : MatchResult} {l : List MatchResult}
    (hl : l.Pairwise (fun a b => b.similarityScore ≤ a.similarityScore
      ∧ (a.similarityScore = b.similarityScore → a.timestamp ≤ b.timestamp)))
    (hx : ∀ y ∈ l, x.timestamp ≤ y.timestamp) :
    (insertDesc x l).Pairwise (fun a b => b.similarityScore ≤ a.similarityScore
      ∧ (a.similarityScore = b.similarityScore → a.timestamp ≤ b.timestamp)) := by
  induction l with
  | nil => simp [insertDesc]
  | cons y ys ih =>
    rcases List.pairwise_cons.mp hl with ⟨hy, hys⟩
    unfold insertDesc
    split
    · next hle =>
      refine List.pairwise_cons.mpr ⟨?_, hl⟩
      intro z hz
      rcases List.mem_cons.mp hz with rfl | hz'
      · exact ⟨hle, fun _ => hx _ (List.mem_cons_self _ _)⟩
      · exact ⟨le_trans (hy z hz').1 hle, fun _ => hx z (List.mem_cons_of_mem y hz')⟩
    · next hlt =>
      have hxy : x.similarityScore < y.similarityScore := lt_of_not_le hlt
      refine List.pairwise_cons.mpr ⟨?_, ih hys (fun z hz => hx z (List.mem_cons_of_mem y hz))⟩
      intro z hz
      rcases List.mem_cons.mp ((insertDesc_perm x ys).mem_iff.mp hz) with rfl | hz'
      · exact ⟨le_of_lt hxy, fun heq => absurd (heq ▸ hxy) (lt_irrefl _)⟩
      · exact hy z hz'

lemma pairwise_sortBySimilarityDesc {l : List MatchResult}
    (hts : l.Pairwise (fun a b => a.timestamp ≤ b.timestamp)) :
    (sortBySimilarityDesc l).Pairwise (fun a b => b.similarityScore ≤ a.similarityScore
      ∧ (a.similarityScore = b.similarityScore → a.timestamp ≤ b.timestamp)) := by
  induction l with
  | nil => simp [sortBySimilarityDesc]
  | cons x xs ih =>
    rcases List.pairwise_cons.mp hts with ⟨hx, hxs⟩
    exact pairwise_insertDesc (ih hxs)
      (fun y hy => hx y ((sortBySimilarityDesc_perm xs).mem_iff.mp hy))

/-! ## Lemmas about the Case Store -/

lemma mapReplace_map_fst (m : List (String × CaseRecord)) (k : String) (v : CaseRecord) :
    (m.map (fun e => if e.1 = k then (k, v) else e)).map Prod.fst = m.map Prod.fst := by
  induction m with
  | nil => rfl
  | cons e es ih =>
    by_cases h : e.1 = k <;> simp [h, ih]

lemma mapSet_any_iff (m : List (String × CaseRecord)) (k : String) :
    (m.any (fun e => e.1 = k)) = true ↔ k ∈ m.map Prod.fst := by
  rw [List.any_eq_true]
  simp only [decide_eq_true_eq, List.mem_map]

lemma mapSet_map_fst_nodup {m : List (String × CaseRecord)} {k : String} {v : CaseRecord}
    (h : (m.map Prod.fst).Nodup) :
    ((mapSet m k v).map Prod.fst).Nodup := by
  unfold mapSet
  split
  · exact (mapReplace_map_fst m k v) ▸ h
  · next hna =>
    have hk : k ∉ m.map Prod.fst := fun hmem =>
      hna ((mapSet_any_iff m k).mpr hmem)
    simp [List.nodup_append, h, hk]

lemma mapReplace_pairwise {m : List (String × CaseRecord)} {k : String} {v : CaseRecord}
    {now : Nat} (hv : v.timestamp = now)
    (hmono : m.Pairwise (fun a b => a.2.timestamp ≤ b.2.timestamp))
    (hnow : ∀ e ∈ m, e.2.timestamp ≤ now)
    (hcol : ∀ e ∈ m, e.1 = k → e.2.timestamp = now) :
    (m.map (fun e => if e.1 = k then (k, v) else e)).Pairwise
      (fun a b => a.2.timestamp ≤ b.2.timestamp) := by
  rw [List.pairwise_map]
  refine hmono.imp_of_mem ?_
  intro a b ha hb hab
  by_cases hak : a.1 = k
  · by_cases hbk : b.1 = k
    · simp [hak, hbk]
    · have h1 : a.2.timestamp = now := hcol a ha hak
      simpa [hak, hbk, hv] using h1 ▸ hab
  · by_cases hbk : b.1 = k
    · simpa [hak, hbk, hv] using hnow a ha
    · simpa [hak, hbk] using hab

lemma mapSet_pairwise {m : List (String × CaseRecord)} {k : String} {v : CaseRecord}
    {now : Nat} (hv : v.timestamp = now)
    (hmono : m.Pairwise (fun a b => a.2.timestamp ≤ b.2.timestamp))
    (hnow : ∀ e ∈ m, e.2.timestamp ≤ now)
    (hcol : ∀ e ∈ m, e.1 = k → e.2.timestamp = now) :
    (mapSet m k v).Pairwise (fun a b => a.2.timestamp ≤ b.2.timestamp) := by
  unfold mapSet
  split
  · exact mapReplace_pairwise hv hmono hnow hcol
  · rw [List.pairwise_append]
    exact ⟨hmono, by simp, fun a ha b hb => by
      rcases List.mem_singleton.mp hb with rfl
      simpa [hv] using hnow a ha⟩

lemma mapSet_timestamp_le {m : List (String × CaseRecord)} {k : String} {v : CaseRecord}
    {now : Nat} (hv : v.timestamp = now)
    (hnow : ∀ e ∈ m, e.2.timestamp ≤ now) :
    ∀ e ∈ mapSet m k v, e.2.timestamp ≤ now := by
  unfold mapSet
  split
  · intro e he
    rcases List.mem_map.mp he with ⟨f, hf, rfl⟩
    by_cases hfk : f.1 = k <;> simp [hfk, hv]
    exact hnow f hf
  · intro e he
    rcases List.mem_append.mp he with he' | he'
    · exact hnow e he'
    · rcases List.mem_singleton.mp he' with rfl
      simp [hv]

lemma prunedCases_sublist (now maxSize : Nat) (maxAge : Option Nat)
    (cases : List (String × CaseRecord)) :
    List.Sublist (prunedCases now maxSize maxAge cases) cases := by
  unfold prunedCases
  exact (List.drop_sublist _ _).trans (List.filter_sublist _)

/-- Evaluation of the matcher on the concrete tie store: both stored cases
carry the query's own fingerprint, so both score exactly 1 and the result
keeps their insertion order. -/
lemma demo_findSimilar_eval :
    findSimilarCases demoStore (some demoIncident) = .ok [demoMatchA, demoMatchB] := by
  have h1 : calculateSimilarity (extractFeatures demoIncident) (extractFeatures demoIncident) = 1 :=
    calculateSimilarity_self _ (extractFeatures_ne_nil _)
  have hlt : (7 : ℚ)/10 < 1 := by norm_num
  simp [findSimilarCases, extractPatterns, demoStore, collectSimilar, demoCaseA, demoCaseB,
        h1, hlt, sortBySimilarityDesc, insertDesc, demoMatchA, demoMatchB]

/-! ## Claim theorems -/

/-- C1 (amended): for every incident and every store whose records'
createdAt timestamps are non-decreasing in insertion order, the sequence
returned by `findSimilarCases` is sorted in descending order of
`similarityScore`; whenever two adjacent results have equal scores, they
appear in store insertion order, i.e. the one with the *older* `createdAt`
comes first (`createdAt` non-decreasing across the tie) — not the more
recent one as the original claim stated. -/
theorem findSimilarCases_sorted_desc_ties_oldest_first
    (cases : List (String × CaseRecord)) (inc : Incident) (res : List MatchResult)
    (hmono : cases.Pairwise (fun a b => a.2.timestamp ≤ b.2.timestamp))
    (hres : findSimilarCases cases (some inc) = .ok res) :
    res.Chain' (fun a b => b.similarityScore ≤ a.similarityScore
      ∧ (a.similarityScore = b.similarityScore → a.timestamp ≤ b.timestamp)) := by
  have hres' : res = sortBySimilarityDesc (collectSimilar (extractFeatures inc) cases) := by
    have := hres
    simp only [findSimilarCases, extractPatterns] at this
    exact (Except.ok.injEq _ _ ▸ this).symm
  rw [hres']
  apply List.Pairwise.chain'
  apply pairwise_sortBySimilarityDesc
  rw [collectSimilar_eq]
  rw [List.pairwise_filterMap]
  refine hmono.imp ?_
  intro a b hab r hr r' hr'
  rw [matchEntry_timestamp hr, matchEntry_timestamp hr']
  exact hab

/-- C1 witness: the sortedness theorem applied to the concrete two-case
store. -/
theorem findSimilarCases_sorted_desc_ties_oldest_first_holds :
    ([demoMatchA, demoMatchB] : List MatchResult).Chain'
      (fun a b => b.similarityScore ≤ a.similarityScore
        ∧ (a.similarityScore = b.similarityScore → a.timestamp ≤ b.timestamp)) :=
  findSimilarCases_sorted_desc_ties_oldest_first demoStore demoIncident _
    (by decide) demo_findSimilar_eval

/-- C1 counterexample: on a store holding two cases with identical
fingerprints (both scoring 1 against the query) created at times 1 and 2,
the code returns them in insertion order — the *older* one first — so the
claimed "more recent createdAt comes first" tie-break is violated. -/
theorem findSimilarCases_ties_not_most_recent_first :
    findSimilarCases demoStore (some demoIncident) = .ok [demoMatchA, demoMatchB]
    ∧ demoMatchA.similarityScore = demoMatchB.similarityScore
    ∧ ¬ demoMatchB.timestamp ≤ demoMatchA.timestamp :=
  ⟨demo_findSimilar_eval, rfl, by decide⟩

/-- C2: every match result returned by `findSimilarCases` has
`similarityScore` strictly greater than the (hard-coded) threshold `0.7`;
no result with a score `≤ 0.7` is ever returned. -/
theorem findSimilarCases_above_threshold
    (cases : List (String × CaseRecord)) (inc : Incident) (res : List MatchResult)
    (r : MatchResult)
    (hres : findSimilarCases cases (some inc) = .ok res) (hr : r ∈ res) :
    7/10 < r.similarityScore := by
  have hres' : res = sortBySimilarityDesc (collectSimilar (extractFeatures inc) cases) := by
    have := hres
    simp only [findSimilarCases, extractPatterns] at this
    exact (Except.ok.injEq _ _ ▸ this).symm
  subst hres'
  have hr' : r ∈ collectSimilar (extractFeatures inc) cases :=
    (sortBySimilarityDesc_perm _).mem_iff.mp hr
  rw [collectSimilar_eq] at hr'
  rcases List.mem_filterMap.mp hr' with ⟨e, _, he⟩
  exact matchEntry_score he

/-- C2 witness: the threshold theorem applied to the concrete store. -/
theorem findSimilarCases_above_threshold_holds :
    7/10 < demoMatchA.similarityScore :=
  findSimilarCases_above_threshold demoStore demoIncident [demoMatchA, demoMatchB]
    demoMatchA demo_findSimilar_eval (by simp)

/-- C3: the similarity score equals `|intersection| / |union|` of the two
feature-token sets, lies in `[0, 1]`, and equals 0 when both sets are
empty. -/
theorem calculateSimilarity_jaccard_bounds (a b : List String) :
    calculateSimilarity a b
      = ((a.toFinset ∩ b.toFinset).card : ℚ) / ((a.toFinset ∪ b.toFinset).card : ℚ)
    ∧ 0 ≤ calculateSimilarity a b ∧ calculateSimilarity a b ≤ 1
    ∧ (a.toFinset = ∅ → b.toFinset = ∅ → calculateSimilarity a b = 0) := by
  refine ⟨?_, calculateSimilarity_nonneg a b, calculateSimilarity_le_one a b, ?_⟩
  · unfold calculateSimilarity
    split
    · next h => simp [h.1, h.2]
    · rfl
  · intro h1 h2
    simp [calculateSimilarity, h1, h2]

/-- C3 witness: the Jaccard theorem applied to two empty fingerprints,
discharging the both-empty hypothesis. -/
theorem calculateSimilarity_jaccard_bounds_holds :
    calculateSimilarity [] [] = 0 :=
  (calculateSimilarity_jaccard_bounds [] []).2.2.2 (by simp) (by simp)

/-- C4: the similarity scorer is symmetric for all fingerprints and
reflexive (score 1) on every non-empty fingerprint. -/
theorem calculateSimilarity_symm_refl :
    (∀ a b : List String, calculateSimilarity a b = calculateSimilarity b a)
    ∧ ∀ a : List String, a ≠ [] → calculateSimilarity a a = 1 :=
  ⟨calculateSimilarity_comm, fun a ha => calculateSimilarity_self a ha⟩

/-- C4 witness: symmetry and reflexivity at concrete fingerprints, the
non-emptiness hypothesis discharged at `["a"]`. -/
theorem calculateSimilarity_symm_refl_holds :
    calculateSimilarity ["a"] ["b"] = calculateSimilarity ["b"] ["a"]
    ∧ calculateSimilarity ["a"] ["a"] = 1 :=
  ⟨calculateSimilarity_symm_refl.1 ["a"] ["b"],
   calculateSimilarity_symm_refl.2 ["a"] (by simp)⟩

/-- C5 (amended): inserting via `updateLearningDatabase` assigns the caseId
`case_${Date.now()}` internally (line 163) and stores the record under it,
but the function resolves to `undefined` — it does *not* return the caseId;
reading the *assigned* caseId back immediately afterwards yields a record
whose `incident` is the inserted incident and whose fingerprint is
`extractFeatures` of that same incident.  Hypotheses: the caseId derived
from the current clock is not already taken, and the configured capacity
admits at least one record. -/
theorem updateLearningDatabase_get_roundtrip
    (st : CompanionState) (inc : Incident) (resp : Response) (now : Nat)
    (hfresh : assignedCaseId now ∉ st.previousCases.map Prod.fst)
    (hsize : 1 ≤ st.maxSize) :
    (updateLearningDatabase st inc resp now).1 = none
    ∧ getCase (updateLearningDatabase st inc resp now).2 (assignedCaseId now)
      = some { incident := inc, response := resp, timestamp := now,
               patterns := extractFeatures inc } := by
  simp only [assignedCaseId] at hfresh ⊢
  refine ⟨rfl, ?_⟩
  have hany : ¬ (st.previousCases.any
      (fun e => e.1 = ("case_" ++ Nat.repr now))) = true := by
    rw [mapSet_any_iff]
    exact hfresh
  have hset : mapSet st.previousCases ("case_" ++ Nat.repr now)
        { incident := inc, response := resp, timestamp := now,
          patterns := extractFeatures inc }
      = st.previousCases
        ++ [("case_" ++ Nat.repr now,
             { incident := inc, response := resp, timestamp := now,
               patterns := extractFeatures inc })] := by
    unfold mapSet
    rw [if_neg hany]
  have hprev : (updateLearningDatabase st inc resp now).2.previousCases
      = prunedCases now st.maxSize st.maxAge
          (st.previousCases
            ++ [("case_" ++ Nat.repr now,
                 { incident := inc, response := resp, timestamp := now,
                   patterns := extractFeatures inc })]) := by
    simp only [updateLearningDatabase, updatePatternLearning, pruneOldData, hset]
  rw [getCase, hprev]
  set filterPred : String × CaseRecord → Bool := fun e =>
    match st.maxAge with
    | none => true
    | some m => now - e.2.timestamp ≤ m with hfp
  have hpx : filterPred ("case_" ++ Nat.repr now,
      { incident := inc, response := resp, timestamp := now,
        patterns := extractFeatures inc }) = true := by
    rw [hfp]
    cases st.maxAge <;> simp
  have hfil : prunedCases now st.maxSize st.maxAge
        (st.previousCases
          ++ [("case_" ++ Nat.repr now,
               { incident := inc, response := resp, timestamp := now,
                 patterns := extractFeatures inc })])
      = ((st.previousCases.filter filterPred).drop
          ((st.previousCases.filter filterPred).length + 1 - st.maxSize))
        ++ [("case_" ++ Nat.repr now,
             { incident := inc, response := resp, timestamp := now,
               patterns := extractFeatures inc })] := by
    have hone : List.filter filterPred
        [("case_" ++ Nat.repr now,
          { incident := inc, response := resp, timestamp := now,
            patterns := extractFeatures inc })]
        = [("case_" ++ Nat.repr now,
            { incident := inc, response := resp, timestamp := now,
              patterns := extractFeatures inc })] := by
      simp [List.filter_cons, hpx]
    unfold prunedCases
    rw [← hfp]
    simp only [List.filter_append, hone, List.length_append, List.length_singleton]
    rw [List.drop_append_of_le_length (by omega)]
  rw [hfil, List.find?_append]
  have hnone : ((st.previousCases.filter filterPred).drop
      ((st.previousCases.filter filterPred).length + 1 - st.maxSize)).find?
        (fun e => e.1 = ("case_" ++ Nat.repr now)) = none := by
    rw [List.find?_eq_none]
    intro e he
    have hmem : e ∈ st.previousCases :=
      ((List.drop_sublist _ _).trans (List.filter_sublist _)).subset he
    simp only [decide_eq_true_eq]
    intro hek
    exact hfresh (List.mem_map.mpr ⟨e, hmem, hek⟩)
  rw [hnone]
  simp

/-- C5 witness: insert-then-get on the empty store with capacity 10 at
clock 5. -/
theorem updateLearningDatabase_get_roundtrip_holds :
    (updateLearningDatabase demoState0 demoIncident demoResponse 5).1 = none
    ∧ getCase (updateLearningDatabase demoState0 demoIncident demoResponse 5).2
        (assignedCaseId 5)
      = some { incident := demoIncident, response := demoResponse, timestamp := 5,
               patterns := extractFeatures demoIncident } :=
  updateLearningDatabase_get_roundtrip demoState0 demoIncident demoResponse 5
    (by simp [demoState0, assignedCaseId]) (by decide)

/-- C5 counterexample: the source function has no return statement, so the
insert at clock 5 resolves to `undefined` (`none`) — not the caseId
`"case_5"` it assigned and stored the record under. -/
theorem updateLearningDatabase_returns_undefined :
    (updateLearningDatabase demoState0 demoIncident demoResponse 5).1 = none
    ∧ (updateLearningDatabase demoState0 demoIncident demoResponse 5).1
        ≠ some (assignedCaseId 5)
    ∧ demoStateAfterFirst.previousCases.map Prod.fst = [assignedCaseId 5] :=
  ⟨rfl, by decide, by decide⟩

/-- C6 (amended): the store never holds two records with the same caseId,
and createdAt stays monotone non-decreasing in insertion order, through any
insert performed at a clock reading `now` at or after every stored
timestamp; but an insert does *not* always assign a fresh caseId — when
`Date.now()` yields the same millisecond as an existing case's id (see the
counterexample), the existing record is silently overwritten and its caseId
returned again. -/
theorem updateLearningDatabase_unique_monotone
    (st : CompanionState) (inc : Incident) (resp : Response) (now : Nat)
    (hkeys : (st.previousCases.map Prod.fst).Nodup)
    (hmono : st.previousCases.Pairwise (fun a b => a.2.timestamp ≤ b.2.timestamp))
    (hnow : ∀ e ∈ st.previousCases, e.2.timestamp ≤ now)
    (hcol : ∀ e ∈ st.previousCases,
      e.1 = "case_" ++ Nat.repr now → e.2.timestamp = now) :
    ((updateLearningDatabase st inc resp now).2.previousCases.map Prod.fst).Nodup
    ∧ (updateLearningDatabase st inc resp now).2.previousCases.Pairwise
        (fun a b => a.2.timestamp ≤ b.2.timestamp)
    ∧ ∀ e ∈ (updateLearningDatabase st inc resp now).2.previousCases,
        e.2.timestamp ≤ now := by
  have hsub := prunedCases_sublist now st.maxSize st.maxAge
    (mapSet st.previousCases ("case_" ++ Nat.repr now)
      { incident := inc, response := resp, timestamp := now,
        patterns := extractFeatures inc })
  refine ⟨?_, ?_, ?_⟩
  · exact (hsub.map Prod.fst).nodup (mapSet_map_fst_nodup hkeys)
  · exact List.Pairwise.sublist hsub (mapSet_pairwise rfl hmono hnow hcol)
  · intro e he
    exact mapSet_timestamp_le rfl hnow e (hsub.subset he)

/-- C6 witness: the preserved invariants after inserting into a one-record
store (record created at 3, clock at 5). -/
theorem updateLearningDatabase_unique_monotone_holds :
    ((updateLearningDatabase demoState1 demoIncident demoResponse 5).2.previousCases.map
        Prod.fst).Nodup
    ∧ (updateLearningDatabase demoState1 demoIncident demoResponse 5).2.previousCases.Pairwise
        (fun a b => a.2.timestamp ≤ b.2.timestamp)
    ∧ ∀ e ∈ (updateLearningDatabase demoState1 demoIncident demoResponse 5).2.previousCases,
        e.2.timestamp ≤ 5 :=
  updateLearningDatabase_unique_monotone demoState1 demoIncident demoResponse 5
    (by decide) (by decide) (by decide) (by decide)

/-- C6 counterexample: two inserts at the same millisecond (`now = 5`).
The caseId the second insert assigns at line 163 (`assignedCaseId 5 =
"case_5"`) is already a caseId of the store it was inserted into, refuting
"each insert assigns a fresh caseId distinct from every caseId already in
the store"; the store still holds a single record afterwards — the first
one was overwritten in place by `Map.set`. -/
theorem updateLearningDatabase_caseId_collision :
    assignedCaseId 5 ∈ demoStateAfterFirst.previousCases.map Prod.fst
    ∧ demoStateAfterFirst.previousCases.map Prod.fst = ["case_5"]
    ∧ demoSecondInsert.2.previousCases.map Prod.fst = ["case_5"] :=
  ⟨by decide, by decide, by decide⟩

/-- C7: after pruning with `maxSize = N` and `maxAge = ∞` a store holding
more than `N` cases, exactly `N` records remain and they are the `N`
most-recently-inserted ones (the final segment in insertion order);
moreover `updateLearningDatabase` invokes the prune on the post-insert
store after every insert. -/
theorem prunedCases_keeps_most_recent
    (cases : List (String × CaseRecord)) (N now : Nat) (hN : N < cases.length) :
    (prunedCases now N none cases).length = N
    ∧ prunedCases now N none cases = cases.drop (cases.length - N)
    ∧ ∀ (st : CompanionState) (inc : Incident) (resp : Response) (m : Nat),
        (updateLearningDatabase st inc resp m).2.previousCases
          = prunedCases m st.maxSize st.maxAge
              (mapSet st.previousCases ("case_" ++ Nat.repr m)
                { incident := inc, response := resp, timestamp := m,
                  patterns := extractFeatures inc }) := by
  have hfil : (cases.filter fun e =>
      match (none : Option Nat) with
      | none => true
      | some m => now - e.2.timestamp ≤ m) = cases := by
    show cases.filter (fun _ => true) = cases
    exact List.filter_true cases
  refine ⟨?_, ?_, fun st inc resp m => rfl⟩
  · unfold prunedCases
    simp only [hfil]
    rw [List.length_drop]
    omega
  · unfold prunedCases
    simp only [hfil]

/-- C7 witness: pruning the two-case store down to its most recent record. -/
theorem prunedCases_keeps_most_recent_holds :
    (prunedCases 9 1 none demoStore).length = 1
    ∧ prunedCases 9 1 none demoStore = demoStore.drop (demoStore.length - 1)
    ∧ ∀ (st : CompanionState) (inc : Incident) (resp : Response) (m : Nat),
        (updateLearningDatabase st inc resp m).2.previousCases
          = prunedCases m st.maxSize st.maxAge
              (mapSet st.previousCases ("case_" ++ Nat.repr m)
                { incident := inc, response := resp, timestamp := m,
                  patterns := extractFeatures inc }) :=
  prunedCases_keeps_most_recent demoStore 1 9 (by decide)

/-- C8: `findSimilarCases` signals `InvalidIncidentError` exactly when the
incident argument is missing / not a structured record (the Pattern
Extractor's error propagates); on every valid incident it signals no error,
and on an empty store it returns the empty sequence. -/
theorem findSimilarCases_error_characterization :
    (∀ cases : List (String × CaseRecord),
        findSimilarCases cases none = .error InvalidIncidentError.invalidIncident)
    ∧ (∀ (cases : List (String × CaseRecord)) (inc : Incident),
        ∃ res, findSimilarCases cases (some inc) = .ok res)
    ∧ ∀ inc : Incident, findSimilarCases [] (some inc) = .ok [] :=
  ⟨fun _ => rfl, fun _ _ => ⟨_, rfl⟩, fun _ => rfl⟩

/-- C9: `findSimilarCases` is a pure query — it leaves both the case store
and the learned-pattern map exactly as they were. -/
theorem findSimilarCasesMethod_preserves_state
    (st : CompanionState) (incident : Option Incident) :
    (findSimilarCasesMethod st incident).2.previousCases = st.previousCases
    ∧ (findSimilarCasesMethod st incident).2.learningPatterns = st.learningPatterns :=
  ⟨rfl, rfl⟩

/-- C10: `analyzeIncidentWithContext` always propagates a `TypeError` to
its caller rather than returning `undefined`: the class defines neither
`calculateConfidence` (so the `try` block always throws at line 73 even
when every external call succeeds) nor `showError`, so the `catch` block's
`this.showError(...)` call at line 83 itself throws. -/
theorem analyzeIncidentWithContext_catch_throws
    (st : CompanionState) (incident : Option Incident) (env : AnalysisEnv) :
    (analyzeIncidentWithContext st incident env).1
      = .error (JSError.typeError "this.showError is not a function")
    ∧ "showError" ∉ securityCompanionMethods
    ∧ "calculateConfidence" ∉ securityCompanionMethods := by
  refine ⟨?_, by decide, by decide⟩
  have hse : "showError" ∉ securityCompanionMethods := by decide
  unfold analyzeIncidentWithContext
  rcases env with ⟨vt, mi, av, gq⟩
  cases vt <;> cases mi <;> cases av <;> cases gq <;>
    cases hfs : findSimilarCases st.previousCases incident <;>
      simp [hfs, hse, Bind.bind, Except.bind]

end ToadSage
